import Mathlib

/-!
Shallow embedding of the astrbot keyword-trigger plugin
(`main.py` and `core/event_factory.py`).

Python strings are modelled as Lean `String`; the Python operations used by
the plugin (`startswith`, `len`, slicing `s[n:]`, `strip`, `split`, `join`,
substring membership `in`) are modelled over the codepoint list `String.data`,
matching Python's codepoint semantics.  Fallible Python attribute access is
modelled with `Option`; exceptions are modelled with an explicit result type.
-/

namespace KeywordTrigger

/-- Python `text.startswith(pre)`. -/
def pyStartswith (s pre : String) : Bool :=
  pre.data.isPrefixOf s.data

/-- Python `len(s)` (number of codepoints). -/
def pyLen (s : String) : Nat :=
  s.data.length

/-- Python `s[n:]` (drop the first `n` codepoints). -/
def pyDrop (s : String) (n : Nat) : String :=
  ⟨s.data.drop n⟩

/-- Python `s.strip()` (remove leading and trailing whitespace). -/
def pyStrip (s : String) : String :=
  ⟨((s.data.dropWhile Char.isWhitespace).reverse.dropWhile Char.isWhitespace).reverse⟩

/-- Auxiliary splitter over codepoint lists (separator `c`), mirroring
Python `s.split(c)` for a one-character separator. -/
def splitAux (c : Char) : List Char → List Char → List (List Char)
  | [], acc => [acc.reverse]
  | x :: xs, acc =>
    if x = c then acc.reverse :: splitAux c xs []
    else splitAux c xs (x :: acc)

/-- Python `s.split(c)` for a single-character separator `c`. -/
def pySplit (s : String) (c : Char) : List String :=
  (splitAux c s.data []).map String.mk

/-- Codepoint-list intercalation with a one-character separator. -/
def joinAux (c : Char) : List (List Char) → List Char
  | [] => []
  | [x] => x
  | x :: xs => x ++ c :: joinAux c xs

/-- Python `sep.join(xs)` for a one-character separator string. -/
def pyJoin (c : Char) (xs : List String) : String :=
  ⟨joinAux c (xs.map String.data)⟩

/-- Substring test over codepoint lists, mirroring Python `pat in s`. -/
def listContainsSub (pat : List Char) : List Char → Bool
  | [] => pat.isEmpty
  | a :: rest => pat.isPrefixOf (a :: rest) || listContainsSub pat rest

/-- Python `pat in s` (substring containment). -/
def pyContainsSub (s pat : String) : Bool :=
  listContainsSub pat.data s.data

/-- Python `c in s` for a single character (used for `":" in origin`). -/
def pyContainsChar (s : String) (c : Char) : Bool :=
  s.data.contains c

/-! ## Data model (from `astrbot` framework types used by the plugin) -/

/-- `astrbot.core.platform.astrbot_message.MessageType`; the enum values are
the strings `"GroupMessage"` / `"FriendMessage"`. -/
inductive MessageType where
  | GroupMessage
  | FriendMessage
deriving DecidableEq, Repr

/-- The string value of a `MessageType` enum member. -/
def MessageType.value : MessageType → String
  | .GroupMessage => "GroupMessage"
  | .FriendMessage => "FriendMessage"

/-- Message-chain components used by the plugin (`Plain`, `At`; anything else
is some other component type, carried opaquely). -/
inductive Component where
  | Plain (text : String)
  | At (qq : String)
  | Other (tag : String)
deriving DecidableEq, Repr

/-- `MessageMember(user_id=..., nickname=...)`. -/
structure MessageMember where
  user_id : String
  nickname : String
deriving DecidableEq, Repr

/-- The `raw_message` dict built by `_create_message_object`. -/
structure RawMessage where
  message : String
  message_type : String
  sender_user_id : String
  sender_nickname : String
  self_id : String
  group_id : Option String
deriving DecidableEq, Repr

/-- `AstrBotMessage` as populated by `EventFactory._create_message_object`. -/
structure AstrBotMessage where
  message_str : String
  session_id : String
  type : MessageType
  self_id : String
  message_id : String
  sender : MessageMember
  group_id : Option String
  message : List Component
  raw_message : RawMessage
deriving DecidableEq, Repr

/-- `PlatformMetadata(platform_type, "command_trigger", platform_id)`. -/
structure PlatformMetadata where
  name : String
  description : String
  id : String
deriving DecidableEq, Repr

/-- A live platform instance as observed by the factory: its
`meta().name` (when that call succeeds and the attribute exists), its
`client_self_id` attribute (when present; the value's `str()` form), and
which connection-handle attributes exist (`bot`, `client`, `web_client`). -/
structure PlatformInstance where
  metaName : Option String
  client_self_id : Option String
  hasBot : Bool
  hasClient : Bool
  hasWebClient : Bool
deriving DecidableEq, Repr

/-- Which event class the factory ended up constructing. -/
inductive EventVariant where
  | aiocqhttp
  | qq_official
  | telegram
  | discord
  | slack
  | lark
  | wechatpadpro
  | webchat
  | dingtalk
  | base
deriving DecidableEq, Repr

/-- The synthesized event object.  `get_sender_id`, `get_sender_name` and
`is_admin` are the values returned by the event's accessors (the variant
constructors derive them from `message_obj`; `create_event` overwrites them
afterwards).  `unified_msg_origin_override`, `is_wake` and
`is_at_or_wake_command` are the attributes `_create_base_event` sets
explicitly (`none` / `false` when the factory did not set them). -/
structure SynthEvent where
  message_str : String
  message_obj : AstrBotMessage
  platform_meta : PlatformMetadata
  session_id : String
  variant : EventVariant
  platform_instance : Option PlatformInstance
  unified_msg_origin_override : Option String
  is_wake : Bool
  is_at_or_wake_command : Bool
  get_sender_id : String
  get_sender_name : String
  is_admin : Bool
deriving DecidableEq, Repr

/-- The host environment: the platform registry
(`context.get_platform_inst`, with lookup failures already collapsed to
`none` as `_get_platform_instance` does), whether constructing the
platform-specific event class of a given platform type raises, and whether
`get_event_queue().put_nowait` raises. -/
structure Env where
  platforms : String → Option PlatformInstance
  ctorFails : String → Bool
  enqueueRaises : Bool

/-! ## `EventFactory` (`core/event_factory.py`) -/

/-- The origin fields computed by the inline parser at the top of
`EventFactory.create_event` (lines 32-48). -/
structure ParsedOrigin where
  platform_id : String
  session_id : String
  msg_type : MessageType
deriving DecidableEq, Repr

/-- The inline origin parsing in `create_event`: defaults
`("unknown", "unknown", FRIEND_MESSAGE)`; with a colon present and at least
3 colon-separated parts, the first part is the platform id, the second
classifies the message type by substring search, and the session id is the
colon-join of everything from the third part on. -/
def parseOrigin (unified_msg_origin : String) : ParsedOrigin :=
  if pyContainsChar unified_msg_origin ':' then
    match pySplit unified_msg_origin ':' with
    | p0 :: p1 :: p2 :: rest =>
      { platform_id := p0
        session_id := pyJoin ':' (p2 :: rest)
        msg_type :=
          if pyContainsSub p1 "GroupMessage" then MessageType.GroupMessage
          else if pyContainsSub p1 "FriendMessage" then MessageType.FriendMessage
          else MessageType.FriendMessage }
    | _ => ⟨"unknown", "unknown", MessageType.FriendMessage⟩
  else ⟨"unknown", "unknown", MessageType.FriendMessage⟩

/-- `_get_platform_instance`: the registry lookup; exceptions inside the
lookup are caught there and collapse to `None`, which `Env.platforms`
already models. -/
def getPlatformInstance (env : Env) (platform_id : String) : Option PlatformInstance :=
  env.platforms platform_id

/-- The static platform-name alias table in `_get_platform_type_from_origin`
(each supported name maps to itself). -/
def platformMapping : List (String × String) :=
  [("aiocqhttp", "aiocqhttp"), ("qq_official", "qq_official"),
   ("telegram", "telegram"), ("discord", "discord"), ("slack", "slack"),
   ("lark", "lark"), ("wechatpadpro", "wechatpadpro"),
   ("webchat", "webchat"), ("dingtalk", "dingtalk")]

/-- Python `platform_mapping.get(k, k)`. -/
def mappingGet (k : String) : String :=
  match platformMapping.find? (fun p => p.1 == k) with
  | some p => p.2
  | none => k

/-- `_get_platform_type_from_origin`. -/
def getPlatformTypeFromOrigin (unified_msg_origin : String) : String :=
  if pyContainsChar unified_msg_origin ':' then
    mappingGet (((pySplit unified_msg_origin ':').headD ""))
  else "unknown"

/-- `_get_platform_type_from_instance`: prefer `meta().name` from the live
instance, else fall back to the origin-based classification. -/
def getPlatformTypeFromInstance (platform_instance : Option PlatformInstance)
    (unified_msg_origin : String) : String :=
  match platform_instance with
  | some inst =>
    match inst.metaName with
    | some n => n
    | none => getPlatformTypeFromOrigin unified_msg_origin
  | none => getPlatformTypeFromOrigin unified_msg_origin

/-- `_get_real_self_id_sync`: with no platform instance, or no usable
(truthy, str-or-int) `client_self_id` attribute, returns the fixed
placeholder `"123456789"`. -/
def getRealSelfIdSync : Option PlatformInstance → String
  | none => "123456789"
  | some inst =>
    match inst.client_self_id with
    | some v => if v ≠ "" then v else "123456789"
    | none => "123456789"

/-- The group id `_create_message_object` derives from the session id for
group messages: the part before the first `"_"` when one is present
(session-isolation format), else the whole session id. -/
def groupIdOfSession (session_id : String) : String :=
  if pyContainsChar session_id '_' then (pySplit session_id '_').headD ""
  else session_id

/-- `_create_message_object` (lines 126-170).  `now` is `int(time.time())`.
The message chain is set to exactly `[Plain(command)]`. -/
def createMessageObject (command session_id : String) (message_type : MessageType)
    (creator_id : String) (creator_name : Option String)
    (platform_instance : Option PlatformInstance) (now : Nat) : AstrBotMessage :=
  let self_id := getRealSelfIdSync platform_instance
  let group_id : Option String :=
    if message_type = MessageType.GroupMessage then some (groupIdOfSession session_id)
    else none
  { message_str := command
    session_id := session_id
    type := message_type
    self_id := self_id
    message_id := "command_trigger_" ++ Nat.repr now
    sender := ⟨creator_id, creator_name.getD "用户"⟩
    group_id := group_id
    message := [Component.Plain command]
    raw_message :=
      { message := command
        message_type := if message_type = MessageType.GroupMessage then "group" else "private"
        sender_user_id := creator_id
        sender_nickname := creator_name.getD "用户"
        self_id := self_id
        group_id := group_id } }

/-- The event object a platform-specific class constructor produces: the
accessors are derived from `message_obj` (they are overridden afterwards by
`create_event`); no extra attributes are set by the constructor itself. -/
def mkVariantEvent (v : EventVariant) (command : String) (msg : AstrBotMessage)
    (meta : PlatformMetadata) (session_id : String)
    (platform_instance : Option PlatformInstance) : SynthEvent :=
  { message_str := command
    message_obj := msg
    platform_meta := meta
    session_id := session_id
    variant := v
    platform_instance := platform_instance
    unified_msg_origin_override := none
    is_wake := false
    is_at_or_wake_command := false
    get_sender_id := msg.sender.user_id
    get_sender_name := msg.sender.nickname
    is_admin := false }

/-- Outcome of the `try:` body of one platform-specific creator:
the specific event was built and returned, or the guard condition failed
(control falls out of the `try` with no `return`), or an exception was
raised inside the specific construction path (and will be caught). -/
inductive AttemptResult where
  | ok (e : SynthEvent)
  | skipped
  | raised
deriving DecidableEq, Repr

/-- The `try:` body of `_create_aiocqhttp_event`: resolve by `meta.id`,
require a `bot` attribute, then construct `AiocqhttpMessageEvent` (which may
raise) and attach the platform instance. -/
def attemptAiocqhttp (env : Env) (command : String) (msg : AstrBotMessage)
    (meta : PlatformMetadata) (session_id : String) : AttemptResult :=
  match getPlatformInstance env meta.id with
  | some p =>
    if p.hasBot then
      if env.ctorFails "aiocqhttp" then .raised
      else .ok (mkVariantEvent .aiocqhttp command msg meta session_id (some p))
    else .skipped
  | none => .skipped

/-- The `try:` body of `_create_qq_official_event`: resolve the literal id
`"qq_official"`, require a `client` attribute, construct the event class. -/
def attemptQQOfficial (env : Env) (command : String) (msg : AstrBotMessage)
    (meta : PlatformMetadata) (session_id : String) : AttemptResult :=
  match getPlatformInstance env "qq_official" with
  | some p =>
    if p.hasClient then
      if env.ctorFails "qq_official" then .raised
      else .ok (mkVariantEvent .qq_official command msg meta session_id none)
    else .skipped
  | none => .skipped

/-- The `try:` body of `_create_telegram_event`. -/
def attemptTelegram (env : Env) (command : String) (msg : AstrBotMessage)
    (meta : PlatformMetadata) (session_id : String) : AttemptResult :=
  match getPlatformInstance env "telegram" with
  | some p =>
    if p.hasClient then
      if env.ctorFails "telegram" then .raised
      else .ok (mkVariantEvent .telegram command msg meta session_id none)
    else .skipped
  | none => .skipped

/-- The `try:` body of `_create_discord_event`. -/
def attemptDiscord (env : Env) (command : String) (msg : AstrBotMessage)
    (meta : PlatformMetadata) (session_id : String) : AttemptResult :=
  match getPlatformInstance env "discord" with
  | some p =>
    if p.hasClient then
      if env.ctorFails "discord" then .raised
      else .ok (mkVariantEvent .discord command msg meta session_id none)
    else .skipped
  | none => .skipped

/-- The `try:` body of `_create_slack_event` (requires `web_client`). -/
def attemptSlack (env : Env) (command : String) (msg : AstrBotMessage)
    (meta : PlatformMetadata) (session_id : String) : AttemptResult :=
  match getPlatformInstance env "slack" with
  | some p =>
    if p.hasWebClient then
      if env.ctorFails "slack" then .raised
      else .ok (mkVariantEvent .slack command msg meta session_id none)
    else .skipped
  | none => .skipped

/-- The `try:` body of `_create_lark_event` (requires `bot`). -/
def attemptLark (env : Env) (command : String) (msg : AstrBotMessage)
    (meta : PlatformMetadata) (session_id : String) : AttemptResult :=
  match getPlatformInstance env "lark" with
  | some p =>
    if p.hasBot then
      if env.ctorFails "lark" then .raised
      else .ok (mkVariantEvent .lark command msg meta session_id none)
    else .skipped
  | none => .skipped

/-- The `try:` body of `_create_wechatpadpro_event` (requires only that the
platform instance resolves). -/
def attemptWeChatPadPro (env : Env) (command : String) (msg : AstrBotMessage)
    (meta : PlatformMetadata) (session_id : String) : AttemptResult :=
  match getPlatformInstance env "wechatpadpro" with
  | some _ =>
    if env.ctorFails "wechatpadpro" then .raised
    else .ok (mkVariantEvent .wechatpadpro command msg meta session_id none)
  | none => .skipped

/-- The `try:` body of `_create_webchat_event` (needs no platform
instance; the import or constructor may still raise). -/
def attemptWebChat (env : Env) (command : String) (msg : AstrBotMessage)
    (meta : PlatformMetadata) (session_id : String) : AttemptResult :=
  if env.ctorFails "webchat" then .raised
  else .ok (mkVariantEvent .webchat command msg meta session_id none)

/-- The `try:` body of `_create_dingtalk_event` (requires `client`). -/
def attemptDingtalk (env : Env) (command : String) (msg : AstrBotMessage)
    (meta : PlatformMetadata) (session_id : String) : AttemptResult :=
  match getPlatformInstance env "dingtalk" with
  | some p =>
    if p.hasClient then
      if env.ctorFails "dingtalk" then .raised
      else .ok (mkVariantEvent .dingtalk command msg meta session_id none)
    else .skipped
  | none => .skipped

/-- `_create_base_event` (lines 379-425): the generic fallback.  It always
constructs a core `AstrMessageEvent` from the same message object, then sets
`unified_msg_origin`, `is_wake` and `is_at_or_wake_command`, and
best-effort attaches the platform instance resolved by `meta.id` (the
reflective attribute copy onto the event is not modelled beyond attaching
the instance; any failure there is caught and ignored). -/
def createBaseEvent (env : Env) (command : String) (msg : AstrBotMessage)
    (meta : PlatformMetadata) (session_id : String) : SynthEvent :=
  { mkVariantEvent .base command msg meta session_id (getPlatformInstance env meta.id) with
    unified_msg_origin_override :=
      some (meta.name ++ ":" ++ msg.type.value ++ ":" ++ session_id)
    is_wake := true
    is_at_or_wake_command := true }

/-- `_create_aiocqhttp_event`: attempt the specific path; a raised exception
is caught (and logged) and a guard failure simply falls through — both
continue to `_create_base_event`. -/
def createAiocqhttpEvent (env : Env) (command : String) (msg : AstrBotMessage)
    (meta : PlatformMetadata) (session_id : String) : SynthEvent :=
  match attemptAiocqhttp env command msg meta session_id with
  | .ok e => e
  | _ => createBaseEvent env command msg meta session_id

/-- `_create_qq_official_event`. -/
def createQQOfficialEvent (env : Env) (command : String) (msg : AstrBotMessage)
    (meta : PlatformMetadata) (session_id : String) : SynthEvent :=
  match attemptQQOfficial env command msg meta session_id with
  | .ok e => e
  | _ => createBaseEvent env command msg meta session_id

/-- `_create_telegram_event`. -/
def createTelegramEvent (env : Env) (command : String) (msg : AstrBotMessage)
    (meta : PlatformMetadata) (session_id : String) : SynthEvent :=
  match attemptTelegram env command msg meta session_id with
  | .ok e => e
  | _ => createBaseEvent env command msg meta session_id

/-- `_create_discord_event`. -/
def createDiscordEvent (env : Env) (command : String) (msg : AstrBotMessage)
    (meta : PlatformMetadata) (session_id : String) : SynthEvent :=
  match attemptDiscord env command msg meta session_id with
  | .ok e => e
  | _ => createBaseEvent env command msg meta session_id

/-- `_create_slack_event`. -/
def createSlackEvent (env : Env) (command : String) (msg : AstrBotMessage)
    (meta : PlatformMetadata) (session_id : String) : SynthEvent :=
  match attemptSlack env command msg meta session_id with
  | .ok e => e
  | _ => createBaseEvent env command msg meta session_id

/-- `_create_lark_event`. -/
def createLarkEvent (env : Env) (command : String) (msg : AstrBotMessage)
    (meta : PlatformMetadata) (session_id : String) : SynthEvent :=
  match attemptLark env command msg meta session_id with
  | .ok e => e
  | _ => createBaseEvent env command msg meta session_id

/-- `_create_wechatpadpro_event`. -/
def createWeChatPadProEvent (env : Env) (command : String) (msg : AstrBotMessage)
    (meta : PlatformMetadata) (session_id : String) : SynthEvent :=
  match attemptWeChatPadPro env command msg meta session_id with
  | .ok e => e
  | _ => createBaseEvent env command msg meta session_id

/-- `_create_webchat_event`. -/
def createWebChatEvent (env : Env) (command : String) (msg : AstrBotMessage)
    (meta : PlatformMetadata) (session_id : String) : SynthEvent :=
  match attemptWebChat env command msg meta session_id with
  | .ok e => e
  | _ => createBaseEvent env command msg meta session_id

/-- `_create_dingtalk_event`. -/
def createDingtalkEvent (env : Env) (command : String) (msg : AstrBotMessage)
    (meta : PlatformMetadata) (session_id : String) : SynthEvent :=
  match attemptDingtalk env command msg meta session_id with
  | .ok e => e
  | _ => createBaseEvent env command msg meta session_id

/-- `_create_platform_specific_event` (lines 172-196): dispatch on the
platform type name; unknown names go straight to the base event. -/
def createPlatformSpecificEvent (platform_name : String) (env : Env)
    (command : String) (msg : AstrBotMessage) (meta : PlatformMetadata)
    (session_id : String) : SynthEvent :=
  if platform_name = "aiocqhttp" then createAiocqhttpEvent env command msg meta session_id
  else if platform_name = "qq_official" then createQQOfficialEvent env command msg meta session_id
  else if platform_name = "telegram" then createTelegramEvent env command msg meta session_id
  else if platform_name = "discord" then createDiscordEvent env command msg meta session_id
  else if platform_name = "slack" then createSlackEvent env command msg meta session_id
  else if platform_name = "lark" then createLarkEvent env command msg meta session_id
  else if platform_name = "wechatpadpro" then createWeChatPadProEvent env command msg meta session_id
  else if platform_name = "webchat" then createWebChatEvent env command msg meta session_id
  else if platform_name = "dingtalk" then createDingtalkEvent env command msg meta session_id
  else createBaseEvent env command msg meta session_id

/-- The outcome of the specific construction attempt the dispatcher runs for
a given platform type (`.skipped` for platform types with no specific
variant). -/
def attemptSpecific (platform_name : String) (env : Env) (command : String)
    (msg : AstrBotMessage) (meta : PlatformMetadata) (session_id : String) :
    AttemptResult :=
  if platform_name = "aiocqhttp" then attemptAiocqhttp env command msg meta session_id
  else if platform_name = "qq_official" then attemptQQOfficial env command msg meta session_id
  else if platform_name = "telegram" then attemptTelegram env command msg meta session_id
  else if platform_name = "discord" then attemptDiscord env command msg meta session_id
  else if platform_name = "slack" then attemptSlack env command msg meta session_id
  else if platform_name = "lark" then attemptLark env command msg meta session_id
  else if platform_name = "wechatpadpro" then attemptWeChatPadPro env command msg meta session_id
  else if platform_name = "webchat" then attemptWebChat env command msg meta session_id
  else if platform_name = "dingtalk" then attemptDingtalk env command msg meta session_id
  else .skipped

/-- `EventFactory.create_event` (lines 29-72): parse the origin, resolve the
platform, build the message object and metadata, construct the
platform-specific (or fallback) event, then unconditionally overwrite
`is_admin` (to a constant-`True` lambda), `get_sender_id` and
`get_sender_name`.  Note the Python signature takes exactly
`(unified_msg_origin, command, creator_id, creator_name=None)`. -/
def create_event (env : Env) (now : Nat) (unified_msg_origin command creator_id : String)
    (creator_name : Option String) : SynthEvent :=
  let parsed := parseOrigin unified_msg_origin
  let platform_instance := getPlatformInstance env parsed.platform_id
  let platform_type := getPlatformTypeFromInstance platform_instance unified_msg_origin
  let msg := createMessageObject command parsed.session_id parsed.msg_type
    creator_id creator_name platform_instance now
  let meta : PlatformMetadata := ⟨platform_type, "command_trigger", parsed.platform_id⟩
  let event := createPlatformSpecificEvent platform_type env command msg meta parsed.session_id
  { event with
    is_admin := true
    get_sender_id := creator_id
    get_sender_name := creator_name.getD "用户" }

/-! ## `KeywordTriggerPlugin` (`main.py`) -/

/-- The plugin configuration surface: the `keywords` list entries that are
strings, and `enable_group_only` (absent means the default `True`). -/
structure PluginConfig where
  keywords : List String
  enable_group_only : Option Bool
deriving DecidableEq, Repr

/-- The plugin state built in `__init__`: the parsed keyword set (kept here
as a list; Python iterates the set in an arbitrary order, and the
longest-match selection below is order-independent), the group-only flag,
and the `triggered_event_ids` set created at line 42. -/
structure PluginState where
  keywords : List String
  group_only : Bool
  triggered_event_ids : List String
deriving DecidableEq, Repr

/-- `_parse_keywords`: keep each string entry whose stripped form is
nonempty, stripped, as a set (modelled as a duplicate-free list). -/
def parseKeywords (items : List String) : List String :=
  items.foldl
    (fun acc item =>
      let s := pyStrip item
      if s ≠ "" && !acc.contains s then acc ++ [s] else acc)
    []

/-- `KeywordTriggerPlugin.__init__` (lines 28-46). -/
def initPlugin (config : PluginConfig) : PluginState :=
  { keywords := parseKeywords config.keywords
    group_only := config.enable_group_only.getD true
    triggered_event_ids := [] }

/-- The inbound `event.message_obj` surface `on_message` reads.  `none` in a
field models a missing attribute or a falsy value (both make the
corresponding `_get_*` helper fall back). -/
structure InboundMessageObj where
  message_id : Option String
  group_id : Option String
  message : Option (List Component)
deriving DecidableEq, Repr

/-- The inbound event surface `on_message` reads.  `sender_name = none`
models an event without a `get_sender_name` attribute; `is_admin = none`
models an `is_admin()` call that raises. -/
structure InboundEvent where
  message_obj : Option InboundMessageObj
  message_str : Option String
  unified_msg_origin : String
  sender_id : String
  sender_name : Option String
  is_admin : Option Bool
deriving DecidableEq, Repr

/-- `_get_message_id` (lines 65-69). -/
def getMessageId (ev : InboundEvent) : String :=
  match ev.message_obj with
  | some m => m.message_id.getD ""
  | none => ""

/-- `_get_group_id` (lines 59-63). -/
def getGroupId (ev : InboundEvent) : String :=
  match ev.message_obj with
  | some m => m.group_id.getD ""
  | none => ""

/-- The first `Plain` component of a message chain, if any. -/
def firstPlain : List Component → Option String
  | [] => none
  | Component.Plain t :: _ => some t
  | _ :: rest => firstPlain rest

/-- `_get_plain_text` (lines 71-86): the first `Plain` component's stripped
text when the chain is present and nonempty and holds one; otherwise the
stripped `message_str` (or `""` when that is absent/falsy). -/
def getPlainText (ev : InboundEvent) : String :=
  let viaChain : Option String :=
    match ev.message_obj with
    | some m =>
      match m.message with
      | some chain => if chain ≠ [] then (firstPlain chain).map pyStrip else none
      | none => none
    | none => none
  match viaChain with
  | some t => t
  | none =>
    match ev.message_str with
    | some s => if s ≠ "" then pyStrip s else ""
    | none => ""

/-- `_extract_non_text_components` (lines 88-107): keep the `At` components
of the original chain, in order. -/
def extractNonTextComponents (ev : InboundEvent) : List Component :=
  match ev.message_obj with
  | some m =>
    match m.message with
    | some chain =>
      if chain ≠ [] then
        chain.filter (fun c => match c with | Component.At _ => true | _ => false)
      else []
    | none => []
  | none => []

/-- The keyword-selection loop of `on_message` (lines 135-140): scan the
keyword set, keeping a candidate that matches (`text == keyword or
text.startswith(keyword)`) and replacing it only by a strictly longer
matching keyword. -/
def matchKeywordAux (text : String) : List String → Option String → Option String
  | [], acc => acc
  | kw :: rest, acc =>
    if text == kw || pyStartswith text kw then
      match acc with
      | none => matchKeywordAux text rest (some kw)
      | some m =>
        if pyLen kw > pyLen m then matchKeywordAux text rest (some kw)
        else matchKeywordAux text rest acc
    else matchKeywordAux text rest acc

/-- The matched keyword `on_message` selects for `text`, if any. -/
def matchKeyword (keywords : List String) (text : String) : Option String :=
  matchKeywordAux text keywords none

/-- Lines 143-145: the rewritten command
`f"/{matched_keyword}{text[len(matched_keyword):]}"`. -/
def rewriteCommand (matched_keyword text : String) : String :=
  "/" ++ matched_keyword ++ pyDrop text (pyLen matched_keyword)

/-- The formal parameters of `EventFactory.create_event`
(besides `self`). -/
def create_event_params : List String :=
  ["unified_msg_origin", "command", "creator_id", "creator_name"]

/-- The keyword arguments `on_message` passes to
`self.event_factory.create_event` (lines 167-174). -/
def on_message_call_kwargs : List String :=
  ["unified_msg_origin", "command", "creator_id", "creator_name",
   "original_components", "is_admin"]

/-- Whether the call in `on_message` binds against `create_event`'s
signature.  Python raises `TypeError` at call time when a keyword argument
does not name a formal parameter. -/
def callBinds : Bool :=
  on_message_call_kwargs.all (fun k => create_event_params.contains k)

/-- A Python expression either returns a value or raises. -/
inductive PyResult (α : Type) where
  | ok (a : α)
  | exn (msg : String)
deriving DecidableEq, Repr

/-- What the `try:` block at lines 161-186 produced. -/
structure DispatchResult where
  command : String
  enqueued : List SynthEvent
  stopped : Bool
  errorLogged : Bool
deriving DecidableEq, Repr

/-- The `try:`/`except` of lines 161-186, given the outcome of the
`create_event` call and whether `put_nowait` raises: any exception is
caught and logged; `stop_event()` runs only after a successful
`put_nowait`. -/
def tryDispatch (command : String) (createResult : PyResult SynthEvent)
    (enqueueRaises : Bool) : DispatchResult :=
  match createResult with
  | .exn _ => ⟨command, [], false, true⟩
  | .ok e =>
    if enqueueRaises then ⟨command, [], false, true⟩
    else ⟨command, [e], true, false⟩

/-- How `on_message` returned. -/
inductive OnMessageResult where
  | skippedSynthetic
  | skippedEmptyText
  | skippedCommandPrefixed
  | skippedNotGroup
  | noMatch
  | dispatched (r : DispatchResult)
deriving DecidableEq, Repr

/-- `KeywordTriggerPlugin.on_message` (lines 109-186), as a function of the
plugin state, host environment, current time and inbound event.  The method
mutates no plugin state.  The `create_event` call passes the keyword
arguments `original_components` and `is_admin`, which the factory's
signature does not accept, so when `callBinds` is false the call raises
`TypeError` before the factory body runs. -/
def onMessage (p : PluginState) (env : Env) (now : Nat) (ev : InboundEvent) :
    OnMessageResult :=
  let message_id := getMessageId ev
  if pyStartswith message_id "command_trigger_" then .skippedSynthetic
  else
    let text := getPlainText ev
    if text = "" then .skippedEmptyText
    else if pyStartswith text "/" || pyStartswith text "#" then .skippedCommandPrefixed
    else if p.group_only && getGroupId ev == "" then .skippedNotGroup
    else
      match matchKeyword p.keywords text with
      | none => .noMatch
      | some matched_keyword =>
        let new_command := rewriteCommand matched_keyword text
        let _original_components := extractNonTextComponents ev
        let _is_admin := ev.is_admin.getD false
        let sender_id := ev.sender_id
        let sender_name := ev.sender_name.getD "用户"
        let createResult : PyResult SynthEvent :=
          if callBinds then
            .ok (create_event env now ev.unified_msg_origin new_command sender_id
              (some sender_name))
          else .exn "TypeError: create_event() got an unexpected keyword argument"
        .dispatched (tryDispatch new_command createResult env.enqueueRaises)

/-! ## Concrete instances used to evaluate the model -/

/-- A live aiocqhttp platform instance registered under the id
`"aiocqhttp"`, with a `bot` handle and a known self id. -/
def envDemo : Env :=
  { platforms := fun pid =>
      if pid = "aiocqhttp" then some ⟨some "aiocqhttp", some "999", true, false, false⟩
      else none
    ctorFails := fun _ => false
    enqueueRaises := false }

/-- The end-to-end scenario's plugin state: keyword set `{"打工"}`,
group-only enabled. -/
def pluginC1 : PluginState := ⟨["打工"], true, []⟩

/-- The end-to-end scenario's inbound group message: text `"打工now"`, a
resolvable group id, a non-synthetic message id. -/
def evC1 : InboundEvent :=
  { message_obj := some ⟨some "orig_1", some "g1", some [Component.Plain "打工now"]⟩
    message_str := some "打工now"
    unified_msg_origin := "aiocqhttp:GroupMessage:g1"
    sender_id := "1001"
    sender_name := some "Alice"
    is_admin := some false }

/-- An inbound event whose message id carries the synthetic prefix and whose
text would itself match the keyword `"command"`. -/
def evSynth : InboundEvent :=
  { message_obj := some ⟨some "command_trigger_7", some "g1",
      some [Component.Plain "command_trigger_7"]⟩
    message_str := some "command_trigger_7"
    unified_msg_origin := "aiocqhttp:GroupMessage:g1"
    sender_id := "1001"
    sender_name := some "Alice"
    is_admin := some false }

/-- A message object built by the factory itself. -/
def msgDemo : AstrBotMessage :=
  createMessageObject "/c" "s1" MessageType.GroupMessage "42" (some "Alice") none 3

/-- Metadata for a platform of type aiocqhttp registered under the
user-assigned id `"本地"`. -/
def metaRaise : PlatformMetadata := ⟨"aiocqhttp", "command_trigger", "本地"⟩

/-- An environment in which the aiocqhttp platform resolves (under the id
`"本地"`, with a `bot` handle) but constructing `AiocqhttpMessageEvent`
raises. -/
def envRaise : Env :=
  { platforms := fun pid =>
      if pid = "本地" then some ⟨some "aiocqhttp", some "999", true, false, false⟩
      else none
    ctorFails := fun t => t == "aiocqhttp"
    enqueueRaises := false }

/-- A concrete synthesized event (a generic fallback event). -/
def eventDemo : SynthEvent :=
  createBaseEvent envDemo "/work" msgDemo metaRaise "s1"

/-! ## Helper lemmas -/

theorem contains_iff_mem (l : List Char) (c : Char) : l.contains c = true ↔ c ∈ l := by
  unfold List.contains
  exact List.elem_iff

theorem contains_false_not_mem {l : List Char} {c : Char}
    (h : l.contains c = false) : c ∉ l := by
  intro hmem
  rw [(contains_iff_mem l c).mpr hmem] at h
  cases h

theorem pyStartswith_append (a b : String) : pyStartswith (a ++ b) a = true := by
  simp [pyStartswith, String.data_append, List.isPrefixOf_iff_prefix, List.prefix_append]

theorem pyStartswith_append_drop {text m : String} (h : pyStartswith text m = true) :
    m ++ pyDrop text (pyLen m) = text := by
  cases text with
  | mk td =>
    cases m with
    | mk md =>
      rw [pyStartswith, List.isPrefixOf_iff_prefix] at h
      obtain ⟨t, ht⟩ := h
      have ht' : md ++ t = td := ht
      show String.mk (md ++ (List.drop md.length td)) = String.mk td
      rw [← ht', List.drop_left]

theorem startswith_of_beq_or {text k : String}
    (h : (text == k || pyStartswith text k) = true) : pyStartswith text k = true := by
  rcases Bool.or_eq_true_iff.mp h with h' | h'
  · have : text = k := eq_of_beq h'
    subst this
    simp [pyStartswith, List.isPrefixOf_iff_prefix]
  · exact h'

theorem splitAux_ne_nil (c : Char) : ∀ (l acc : List Char), splitAux c l acc ≠ []
  | [], acc => by simp [splitAux]
  | x :: xs, acc => by
    rw [splitAux]
    split
    · simp
    · exact splitAux_ne_nil c xs (x :: acc)

theorem splitAux_sep (c : Char) : ∀ (l₁ : List Char) (l₂ acc : List Char), c ∉ l₁ →
    splitAux c (l₁ ++ c :: l₂) acc = (acc.reverse ++ l₁) :: splitAux c l₂ []
  | [], l₂, acc, _ => by simp [splitAux]
  | x :: xs, l₂, acc, h => by
    have hx : x ≠ c := fun he => h (he ▸ List.mem_cons_self x xs)
    have hxs : c ∉ xs := fun hm => h (List.mem_cons_of_mem x hm)
    rw [List.cons_append, splitAux, if_neg hx, splitAux_sep c xs l₂ (x :: acc) hxs]
    simp

theorem joinAux_splitAux (c : Char) : ∀ (l acc : List Char),
    joinAux c (splitAux c l acc) = acc.reverse ++ l
  | [], acc => by simp [splitAux, joinAux]
  | x :: xs, acc => by
    rw [splitAux]
    split
    · next hx =>
      subst hx
      obtain ⟨s0, st, hs⟩ : ∃ s0 st, splitAux x xs [] = s0 :: st := by
        cases h : splitAux x xs [] with
        | nil => exact absurd h (splitAux_ne_nil x xs [])
        | cons s0 st => exact ⟨s0, st, rfl⟩
      have hrec := joinAux_splitAux x xs ([] : List Char)
      rw [hs] at hrec ⊢
      simp only [List.reverse_nil, List.nil_append] at hrec
      show acc.reverse ++ (x :: joinAux x (s0 :: st)) = acc.reverse ++ x :: xs
      rw [hrec]
    · next hx =>
      rw [joinAux_splitAux c xs (x :: acc)]
      simp

theorem matchKeywordAux_spec (text : String) :
    ∀ (kws : List String) (acc : Option String),
      (∀ a, acc = some a → (text == a || pyStartswith text a) = true) →
      ∀ m, matchKeywordAux text kws acc = some m →
        (text == m || pyStartswith text m) = true ∧
        (m ∈ kws ∨ acc = some m) ∧
        (∀ k ∈ kws, (text == k || pyStartswith text k) = true → pyLen k ≤ pyLen m) ∧
        (∀ a, acc = some a → pyLen a ≤ pyLen m) := by
  intro kws
  induction kws with
  | nil =>
    intro acc hacc m hm
    simp only [matchKeywordAux] at hm
    refine ⟨hacc m hm, Or.inr hm, ?_, ?_⟩
    · intro k hk
      cases hk
    · intro a ha
      rw [hm] at ha
      cases ha
      exact Nat.le_refl _
  | cons kw rest ih =>
    intro acc hacc m hm
    simp only [matchKeywordAux] at hm
    by_cases hmatch : (text == kw || pyStartswith text kw) = true
    · rw [if_pos hmatch] at hm
      rcases acc with _ | a0
      · have hm' : matchKeywordAux text rest (some kw) = some m := hm
        obtain ⟨h1, h2, h3, h4⟩ := ih (some kw) (fun a ha => by cases ha; exact hmatch) m hm'
        refine ⟨h1, ?_, ?_, ?_⟩
        · rcases h2 with h2 | h2
          · exact Or.inl (List.mem_cons_of_mem kw h2)
          · cases h2
            exact Or.inl (List.mem_cons_self kw rest)
        · intro k hk hkm
          rcases List.mem_cons.mp hk with hk | hk
          · cases hk
            exact h4 _ rfl
          · exact h3 k hk hkm
        · intro a ha
          cases ha
      · have ha0 : (text == a0 || pyStartswith text a0) = true := hacc a0 rfl
        by_cases hlen : pyLen kw > pyLen a0
        · have hm' : matchKeywordAux text rest (some kw) = some m := by
            have hstep : (if pyLen kw > pyLen a0 then matchKeywordAux text rest (some kw)
                else matchKeywordAux text rest (some a0)) = some m := hm
            rwa [if_pos hlen] at hstep
          obtain ⟨h1, h2, h3, h4⟩ := ih (some kw) (fun a ha => by cases ha; exact hmatch) m hm'
          refine ⟨h1, ?_, ?_, ?_⟩
          · rcases h2 with h2 | h2
            · exact Or.inl (List.mem_cons_of_mem kw h2)
            · cases h2
              exact Or.inl (List.mem_cons_self kw rest)
          · intro k hk hkm
            rcases List.mem_cons.mp hk with hk | hk
            · cases hk
              exact h4 _ rfl
            · exact h3 k hk hkm
          · intro a ha
            cases ha
            exact Nat.le_trans (Nat.le_of_lt hlen) (h4 _ rfl)
        · have hm' : matchKeywordAux text rest (some a0) = some m := by
            have hstep : (if pyLen kw > pyLen a0 then matchKeywordAux text rest (some kw)
                else matchKeywordAux text rest (some a0)) = some m := hm
            rwa [if_neg hlen] at hstep
          obtain ⟨h1, h2, h3, h4⟩ := ih (some a0) (fun a ha => by cases ha; exact ha0) m hm'
          refine ⟨h1, ?_, ?_, ?_⟩
          · rcases h2 with h2 | h2
            · exact Or.inl (List.mem_cons_of_mem kw h2)
            · exact Or.inr h2
          · intro k hk hkm
            rcases List.mem_cons.mp hk with hk | hk
            · cases hk
              exact Nat.le_trans (Nat.le_of_not_lt hlen) (h4 _ rfl)
            · exact h3 k hk hkm
          · intro a ha
            cases ha
            exact h4 _ rfl
    · rw [if_neg hmatch] at hm
      obtain ⟨h1, h2, h3, h4⟩ := ih acc hacc m hm
      refine ⟨h1, ?_, ?_, h4⟩
      · rcases h2 with h2 | h2
        · exact Or.inl (List.mem_cons_of_mem kw h2)
        · exact Or.inr h2
      · intro k hk hkm
        rcases List.mem_cons.mp hk with hk | hk
        · cases hk
          exact absurd hkm hmatch
        · exact h3 k hk hkm

theorem matchKeywordAux_isSome (text : String) :
    ∀ (kws : List String) (acc : Option String),
      (acc.isSome = true ∨ ∃ k ∈ kws, (text == k || pyStartswith text k) = true) →
      (matchKeywordAux text kws acc).isSome = true := by
  intro kws
  induction kws with
  | nil =>
    intro acc h
    simp only [matchKeywordAux]
    rcases h with h | ⟨k, hk, _⟩
    · exact h
    · cases hk
  | cons kw rest ih =>
    intro acc h
    simp only [matchKeywordAux]
    by_cases hmatch : (text == kw || pyStartswith text kw) = true
    · rw [if_pos hmatch]
      rcases acc with _ | a0
      · exact ih (some kw) (Or.inl rfl)
      · show (if pyLen kw > pyLen a0 then matchKeywordAux text rest (some kw)
            else matchKeywordAux text rest (some a0)).isSome = true
        by_cases hlen : pyLen kw > pyLen a0
        · rw [if_pos hlen]
          exact ih (some kw) (Or.inl rfl)
        · rw [if_neg hlen]
          exact ih (some a0) (Or.inl rfl)
    · rw [if_neg hmatch]
      refine ih acc ?_
      rcases h with h | ⟨k, hk, hkm⟩
      · exact Or.inl h
      · rcases List.mem_cons.mp hk with hk | hk
        · cases hk
          exact absurd hkm hmatch
        · exact Or.inr ⟨k, hk, hkm⟩

/-! ## Claim theorems -/

/-- C1: on the end-to-end scenario (inbound group message with text
`"打工now"`, keyword set `{"打工"}`, group-only enabled, resolvable group
id), the matcher does compute the command `"/打工now"`, but the
`create_event` call raises `TypeError` (its signature does not accept the
`original_components` / `is_admin` keyword arguments `on_message` passes),
so the pipeline enqueues no event and never stops propagation of the
original event — contradicting the claimed end-to-end behaviour. -/
theorem C1_pipeline_drops_event :
    onMessage pluginC1 envDemo 7 evC1 =
      OnMessageResult.dispatched ⟨"/打工now", [], false, true⟩ ∧
    callBinds = false := by
  constructor
  · rfl
  · rfl

/-- C2: every message object built by the factory has a message id starting
with the reserved prefix `"command_trigger_"`, and every inbound event whose
message id starts with that prefix makes `on_message` return at the very
first check, for every plugin state (hence every keyword set), environment
and time. -/
theorem C2_loop_guard :
    (∀ (command session_id : String) (mt : MessageType) (creator_id : String)
        (creator_name : Option String) (pinst : Option PlatformInstance) (now : Nat),
      pyStartswith
        (createMessageObject command session_id mt creator_id creator_name pinst now).message_id
        "command_trigger_" = true) ∧
    (∀ (p : PluginState) (env : Env) (now : Nat) (ev : InboundEvent),
      pyStartswith (getMessageId ev) "command_trigger_" = true →
      onMessage p env now ev = OnMessageResult.skippedSynthetic) := by
  constructor
  · intro command session_id mt creator_id creator_name pinst now
    exact pyStartswith_append "command_trigger_" (Nat.repr now)
  · intro p env now ev h
    simp only [onMessage, h]
    rfl

/-- Witness for C2: a concrete synthetic-id inbound event whose text would
itself match the configured keyword `"command"` is still skipped before
matching, and a concrete factory-built message carries the prefix. -/
theorem C2_loop_guard_witness :
    pyStartswith
      (createMessageObject "/x" "s" MessageType.FriendMessage "1" none none 5).message_id
      "command_trigger_" = true ∧
    onMessage ⟨["command"], false, []⟩ envDemo 5 evSynth = OnMessageResult.skippedSynthetic := by
  constructor
  · exact C2_loop_guard.1 "/x" "s" MessageType.FriendMessage "1" none none 5
  · exact C2_loop_guard.2 ⟨["command"], false, []⟩ envDemo 5 evSynth (by decide)

/-- C3: `create_event` does overwrite the sender-id and display-name
accessors with the caller-supplied values, but it sets the privilege
accessor to the constant `True` — it accepts no privilege argument at all
(`is_admin` is not among its parameters, and the call `on_message` makes,
which does pass `is_admin`, fails to bind) — so the privilege accessor
never reflects the original sender's admin status. -/
theorem C3_sender_override :
    (∀ (env : Env) (now : Nat) (umo cmd cid : String) (cname : Option String),
      (create_event env now umo cmd cid cname).get_sender_id = cid ∧
      (create_event env now umo cmd cid cname).get_sender_name = cname.getD "用户" ∧
      (create_event env now umo cmd cid cname).is_admin = true) ∧
    "is_admin" ∉ create_event_params ∧
    callBinds = false := by
  refine ⟨fun env now umo cmd cid cname => ⟨rfl, rfl, rfl⟩, by decide, by decide⟩

/-- C6 counterexample: when the `create_event` call succeeds and the enqueue
raises, the `try` block logs the failure and drops the message, but
`stop_event` — which sits after `put_nowait` inside the `try` — is never
executed, so propagation is NOT stopped (the claim says it still is). -/
theorem C6_counterexample :
    (tryDispatch "/work" (PyResult.ok eventDemo) true).stopped = false ∧
    (tryDispatch "/work" (PyResult.ok eventDemo) true).errorLogged = true ∧
    (tryDispatch "/work" (PyResult.ok eventDemo) true).enqueued = [] :=
  ⟨rfl, rfl, rfl⟩

/-- C6 (amended): if the enqueue of a synthesized event raises, the failure
is logged and the message is dropped with no retry, and propagation of the
original event is NOT stopped; moreover, in the code as written the enqueue
is never even reached, because the `create_event` call raises `TypeError`
first (`callBinds = false`). -/
theorem C6_enqueue_failure :
    (∀ (cmd : String) (e : SynthEvent),
      tryDispatch cmd (PyResult.ok e) true = ⟨cmd, [], false, true⟩) ∧
    callBinds = false :=
  ⟨fun cmd e => rfl, by decide⟩

/-- C8: the message object the factory builds carries exactly the single
synthesized text segment `[Plain(command)]` — the non-text components
extracted from the original message never appear in it; indeed
`create_event` has no `original_components` parameter, so the call passing
them raises `TypeError`. -/
theorem C8_components_dropped :
    (∀ (command session_id : String) (mt : MessageType) (creator_id : String)
        (creator_name : Option String) (pinst : Option PlatformInstance) (now : Nat),
      (createMessageObject command session_id mt creator_id creator_name pinst now).message =
        [Component.Plain command]) ∧
    "original_components" ∉ create_event_params ∧
    callBinds = false :=
  ⟨fun command session_id mt creator_id creator_name pinst now => rfl, by decide, by decide⟩

/-- C9 counterexample: with no live platform instance, the self-identifier
is the fabricated placeholder `"123456789"`, not the empty string the claim
requires. -/
theorem C9_counterexample :
    getRealSelfIdSync none = "123456789" ∧ getRealSelfIdSync none ≠ "" :=
  ⟨rfl, by decide⟩

/-- C9 (amended): the self-identifier falls back to the fixed placeholder
`"123456789"` whenever it cannot be determined (no live platform instance,
no `client_self_id` attribute, or a falsy one); a usable `client_self_id`
is returned as-is. -/
theorem C9_placeholder_self_id :
    getRealSelfIdSync none = "123456789" ∧
    (∀ inst : PlatformInstance, inst.client_self_id = none →
      getRealSelfIdSync (some inst) = "123456789") ∧
    (∀ (inst : PlatformInstance) (v : String), inst.client_self_id = some v → v ≠ "" →
      getRealSelfIdSync (some inst) = v) := by
  refine ⟨rfl, ?_, ?_⟩
  · intro inst h
    simp [getRealSelfIdSync, h]
  · intro inst v h hv
    simp [getRealSelfIdSync, h, hv]

/-- Witness for C9's amended statement at concrete instances. -/
theorem C9_placeholder_self_id_witness :
    getRealSelfIdSync (some ⟨none, none, false, false, false⟩) = "123456789" ∧
    getRealSelfIdSync (some ⟨none, some "777", false, false, false⟩) = "777" :=
  ⟨C9_placeholder_self_id.2.1 ⟨none, none, false, false, false⟩ rfl,
   C9_placeholder_self_id.2.2 ⟨none, some "777", false, false, false⟩ "777" rfl (by decide)⟩

/-- C10: the `triggered_event_ids` set is empty at construction, and
`on_message` — the plugin's only message operation — neither reads it (its
result is invariant under the stored value) nor writes it (the state is
not mutated, so it stays empty forever). -/
theorem C10_dead_dedup_record :
    (∀ config : PluginConfig, (initPlugin config).triggered_event_ids = []) ∧
    (∀ (kws : List String) (go : Bool) (ids ids' : List String) (env : Env)
        (now : Nat) (ev : InboundEvent),
      onMessage ⟨kws, go, ids⟩ env now ev = onMessage ⟨kws, go, ids'⟩ env now ev) :=
  ⟨fun _ => rfl, fun _ _ _ _ _ _ _ => rfl⟩

/-- C5: whenever the platform-specific construction path raises, the
dispatcher returns the generic fallback event built from the same message
object (hence the supplied sender identity and conversation routing) and
the same session id; no exception propagates (the dispatcher is total). -/
theorem C5_fallback_chain (platform_name : String) (env : Env) (command : String)
    (msg : AstrBotMessage) (meta : PlatformMetadata) (session_id : String)
    (h : attemptSpecific platform_name env command msg meta session_id = AttemptResult.raised) :
    createPlatformSpecificEvent platform_name env command msg meta session_id =
      createBaseEvent env command msg meta session_id ∧
    (createBaseEvent env command msg meta session_id).message_obj = msg ∧
    (createBaseEvent env command msg meta session_id).session_id = session_id ∧
    (createBaseEvent env command msg meta session_id).variant = EventVariant.base := by
  refine ⟨?_, rfl, rfl, rfl⟩
  unfold attemptSpecific at h
  unfold createPlatformSpecificEvent
  split_ifs at h ⊢ <;>
    simp_all [createAiocqhttpEvent, createQQOfficialEvent, createTelegramEvent,
      createDiscordEvent, createSlackEvent, createLarkEvent, createWeChatPadProEvent,
      createWebChatEvent, createDingtalkEvent]

/-- Witness for C5: an aiocqhttp platform that resolves with a `bot` handle
but whose event-class constructor raises; the dispatcher yields the base
fallback event. -/
theorem C5_fallback_chain_witness :
    attemptSpecific "aiocqhttp" envRaise "/c" msgDemo metaRaise "s1" = AttemptResult.raised ∧
    createPlatformSpecificEvent "aiocqhttp" envRaise "/c" msgDemo metaRaise "s1" =
      createBaseEvent envRaise "/c" msgDemo metaRaise "s1" := by
  refine ⟨rfl, ?_⟩
  exact (C5_fallback_chain "aiocqhttp" envRaise "/c" msgDemo metaRaise "s1" rfl).1

/-- C4: for every keyword set and text (in particular any text not starting
with a command-prefix character), a selected keyword is a member of the set
matching the text (equal or a prefix), of maximal length among all matching
keywords; the rewritten command is `"/" + keyword + suffix` where the
suffix is the text with the keyword stripped from the front; and whenever
some keyword matches, one is selected. -/
theorem C4_longest_match :
    (∀ (kws : List String) (text m : String),
      ¬(pyStartswith text "/" = true ∨ pyStartswith text "#" = true) →
      matchKeyword kws text = some m →
      m ∈ kws ∧
      (text == m || pyStartswith text m) = true ∧
      (∀ k ∈ kws, (text == k || pyStartswith text k) = true → pyLen k ≤ pyLen m) ∧
      rewriteCommand m text = "/" ++ m ++ pyDrop text (pyLen m) ∧
      m ++ pyDrop text (pyLen m) = text) ∧
    (∀ (kws : List String) (text : String),
      (∃ k ∈ kws, (text == k || pyStartswith text k) = true) →
      (matchKeyword kws text).isSome = true) := by
  constructor
  · intro kws text m _hpre hm
    obtain ⟨h1, h2, h3, _h4⟩ :=
      matchKeywordAux_spec text kws none (fun a ha => by cases ha) m hm
    have hmem : m ∈ kws := by
      rcases h2 with h2 | h2
      · exact h2
      · cases h2
    exact ⟨hmem, h1, h3, rfl, pyStartswith_append_drop (startswith_of_beq_or h1)⟩
  · intro kws text hex
    exact matchKeywordAux_isSome text kws none (Or.inr hex)

/-- Witness for C4: with keywords `{"menu", "menu_full"}` and input
`"menu_full please"` the selected keyword is `"menu_full"` and the command
is `"/menu_full please"`; with keyword `"work"` and input `"work"` the
command is `"/work"` with empty suffix. -/
theorem C4_longest_match_witness :
    matchKeyword ["menu", "menu_full"] "menu_full please" = some "menu_full" ∧
    rewriteCommand "menu_full" "menu_full please" = "/menu_full please" ∧
    matchKeyword ["work"] "work" = some "work" ∧
    rewriteCommand "work" "work" = "/work" ∧
    "menu_full" ∈ ["menu", "menu_full"] := by
  refine ⟨by decide, by decide, by decide, by decide, ?_⟩
  exact (C4_longest_match.1 ["menu", "menu_full"] "menu_full please" "menu_full"
    (by decide) (by decide)).1

theorem map_mk_data : ∀ L : List (List Char), (L.map String.mk).map String.data = L
  | [] => rfl
  | l :: ls => by
    simp only [List.map_cons]
    rw [map_mk_data ls]

/-- C7: origin tokens with fewer than 3 colon-separated parts parse to the
all-unknown sentinel descriptor (the parse is total, never failing), and
for tokens `p0:p1:tail` (where `p0`, `p1` are colon-free, so the token has
at least 3 parts) the platform id is `p0` and the conversation id is the
whole remainder `tail`, internal colons preserved. -/
theorem C7_origin_contract :
    (∀ umo : String, (pySplit umo ':').length < 3 →
      parseOrigin umo = ⟨"unknown", "unknown", MessageType.FriendMessage⟩) ∧
    (∀ p0 p1 tail : String,
      p0.data.contains ':' = false → p1.data.contains ':' = false →
      (parseOrigin (p0 ++ ":" ++ p1 ++ ":" ++ tail)).platform_id = p0 ∧
      (parseOrigin (p0 ++ ":" ++ p1 ++ ":" ++ tail)).session_id = tail) := by
  constructor
  · intro umo hlen
    unfold parseOrigin
    by_cases hc : pyContainsChar umo ':' = true
    · rw [if_pos hc]
      rcases hsp : pySplit umo ':' with _ | ⟨a, _ | ⟨b, _ | ⟨c2, rest⟩⟩⟩
      · rfl
      · rfl
      · rfl
      · exfalso
        rw [hsp] at hlen
        simp only [List.length_cons] at hlen
        omega
    · rw [if_neg hc]
  · intro p0 p1 tail h0 h1
    have hcolon : (":" : String).data = [':'] := rfl
    have hdata : (p0 ++ ":" ++ p1 ++ ":" ++ tail).data =
        p0.data ++ ':' :: (p1.data ++ ':' :: tail.data) := by
      simp [String.data_append, hcolon]
    have hnot0 : ':' ∉ p0.data := contains_false_not_mem h0
    have hnot1 : ':' ∉ p1.data := contains_false_not_mem h1
    have hc : pyContainsChar (p0 ++ ":" ++ p1 ++ ":" ++ tail) ':' = true := by
      refine (contains_iff_mem _ _).mpr ?_
      rw [hdata]
      exact List.mem_append_right _ (List.mem_cons_self _ _)
    have hsplit : pySplit (p0 ++ ":" ++ p1 ++ ":" ++ tail) ':' =
        p0 :: p1 :: (splitAux ':' tail.data []).map String.mk := by
      unfold pySplit
      rw [hdata, splitAux_sep ':' p0.data (p1.data ++ ':' :: tail.data) [] hnot0,
        splitAux_sep ':' p1.data tail.data [] hnot1]
      simp
    obtain ⟨s0, st, hS⟩ : ∃ s0 st, splitAux ':' tail.data [] = s0 :: st := by
      cases h : splitAux ':' tail.data [] with
      | nil => exact absurd h (splitAux_ne_nil ':' tail.data [])
      | cons s0 st => exact ⟨s0, st, rfl⟩
    have hjoin : pyJoin ':' ((splitAux ':' tail.data []).map String.mk) = tail := by
      unfold pyJoin
      rw [map_mk_data, joinAux_splitAux ':' tail.data []]
      rfl
    have hsplit' : pySplit (p0 ++ ":" ++ p1 ++ ":" ++ tail) ':' =
        p0 :: p1 :: String.mk s0 :: st.map String.mk := by
      rw [hsplit, hS]
      rfl
    constructor
    · unfold parseOrigin
      rw [if_pos hc, hsplit']
    · unfold parseOrigin
      rw [if_pos hc, hsplit']
      show pyJoin ':' ((s0 :: st).map String.mk) = tail
      rw [← hS]
      exact hjoin

/-- Witness for C7 at concrete tokens: a colon-free short token parses to
the sentinel descriptor, and a 5-part token keeps the colons of its
conversation id. -/
theorem C7_origin_contract_witness :
    parseOrigin "ab" = ⟨"unknown", "unknown", MessageType.FriendMessage⟩ ∧
    parseOrigin "a:b" = ⟨"unknown", "unknown", MessageType.FriendMessage⟩ ∧
    (parseOrigin "p:GroupMessage:rest:with:colons").platform_id = "p" ∧
    (parseOrigin "p:GroupMessage:rest:with:colons").session_id = "rest:with:colons" := by
  refine ⟨C7_origin_contract.1 "ab" (by decide), C7_origin_contract.1 "a:b" (by decide),
    ?_, ?_⟩
  · exact ((C7_origin_contract.2 "p" "GroupMessage" "rest:with:colons"
      (by decide) (by decide)).1)
  · exact ((C7_origin_contract.2 "p" "GroupMessage" "rest:with:colons"
      (by decide) (by decide)).2)

end KeywordTrigger
